import Mathlib

/-!
Verification of the endpoint response normalizer and conversation handling of
the juan-mas-app chatbot repository.

The embedded code lives in:
- `src/databricks/sdk_wrapper.py` (`is_endpoint_supported`, `_query_endpoint`
  with task-type validation, envelope dispatch and the response-shape
  normalization block), and
- `DatabricksChatbot.py` (`_call_model_endpoint`, the `handle_user_input` and
  `handle_assistant_response` Dash callbacks).

Python's untyped JSON-like values are modelled by the `PyVal` inductive.
Python exceptions are modelled by `Except String`; the carried string is a
best-effort rendering of the exception message.
-/

set_option autoImplicit false

/-- A Python value as exchanged with the serving endpoint: strings, integers,
booleans, `None`, lists and string-keyed dicts (association lists with the
first binding winning, matching unique-key Python dicts). -/
inductive PyVal where
  | str (s : String)
  | int (n : Int)
  | bool (b : Bool)
  | null
  | list (xs : List PyVal)
  | dict (fields : List (String × PyVal))

mutual

/-- Python `repr` of a value, as used inside `str` of containers.  String
escaping inside `repr` is not modelled (the embedded strings carry no quote
characters in any claim). -/
def pyRepr : PyVal → String
  | PyVal.str s => "\x27" ++ s ++ "\x27"
  | PyVal.int n => toString n
  | PyVal.bool b => cond b "True" "False"
  | PyVal.null => "None"
  | PyVal.list xs => "[" ++ pyReprList xs ++ "]"
  | PyVal.dict fs => "\x7b" ++ pyReprFields fs ++ "\x7d"

/-- Comma-separated `repr`s of the elements of a Python list. -/
def pyReprList : List PyVal → String
  | [] => ""
  | [x] => pyRepr x
  | x :: y :: xs => pyRepr x ++ ", " ++ pyReprList (y :: xs)

/-- Comma-separated `repr`s of the key/value pairs of a Python dict. -/
def pyReprFields : List (String × PyVal) → String
  | [] => ""
  | [(k, v)] => "\x27" ++ k ++ "\x27: " ++ pyRepr v
  | (k, v) :: f :: fs => "\x27" ++ k ++ "\x27: " ++ pyRepr v ++ ", " ++ pyReprFields (f :: fs)

end

/-- Python `str(...)`: identity on strings, `repr` otherwise. -/
def pyStr : PyVal → String
  | PyVal.str s => s
  | v => pyRepr v

/-- Python `d.get(k)` / `k in d` support: first binding of key `k`. -/
def PyVal.lookupKey : PyVal → String → Option PyVal
  | PyVal.dict fs, k => fs.lookup k
  | _, _ => Option.none

/-! ## Endpoint dialect classification and request envelopes
(`src/databricks/sdk_wrapper.py`, `is_endpoint_supported` and the
input-format dispatch of `_query_endpoint`). -/

/-- The fixed allow-list `supported_task_types` of `is_endpoint_supported`. -/
def supportedTaskTypes : List String :=
  ["agent/v1/chat",
   "agent/v2/chat",
   "llm/v1/chat",
   "agent/v1/supervisor",
   "agent/v2/supervisor",
   "agent/v1/responses"]

/-- The check `is_endpoint_supported`: membership of the endpoint's task type in the
allow-list (the task type itself is fetched by the external workspace client,
modelled as the `task` argument). -/
def is_endpoint_supported (task : String) : Bool :=
  supportedTaskTypes.contains task

/-- The request/response dialects of the specification. -/
inductive Dialect where
  | standardChat
  | supervisor
  | responseStyle
  | unsupported
deriving DecidableEq

/-- The dialect classification realized by `_validate_endpoint_task_type`
followed by the task-type dispatch in `_query_endpoint`: validation rejects
anything outside the allow-list, then the supervisor pair, then
`agent/v1/responses`, else the standard chat envelope. -/
def classifyDialect (task : String) : Dialect :=
  if is_endpoint_supported task = false then Dialect.unsupported
  else if task = "agent/v1/supervisor" ∨ task = "agent/v2/supervisor" then Dialect.supervisor
  else if task = "agent/v1/responses" then Dialect.responseStyle
  else Dialect.standardChat

/-- The `inputs` dict built by `_query_endpoint` before calling `predict`. -/
def buildInputs (task : String) (messages maxTokens : PyVal) : PyVal :=
  if task = "agent/v1/supervisor" ∨ task = "agent/v2/supervisor" then
    PyVal.dict [("messages", messages), ("max_tokens", maxTokens), ("stream", PyVal.bool false)]
  else if task = "agent/v1/responses" then
    PyVal.dict [("input", messages), ("max_output_tokens", maxTokens), ("stream", PyVal.bool false)]
  else
    PyVal.dict [("messages", messages), ("max_tokens", maxTokens)]

/-! ## Response normalization
(the response-handling block of `_query_endpoint`, lines 74-104). -/

/-- The `output_messages` accumulation loop of the `output` branch of
`_query_endpoint`: one `{role, content}` dict per output item that is a dict
whose `content` is a non-empty list starting with a dict carrying `text`;
the role defaults to `"assistant"` when the item has none. -/
def collectOutputMessages : List PyVal → List PyVal
  | [] => []
  | item :: rest =>
    match item with
    | PyVal.dict itf =>
      match itf.lookup "content" with
      | some (PyVal.list (first :: _)) =>
        match first with
        | PyVal.dict ff =>
          match ff.lookup "text" with
          | some t =>
            PyVal.dict [("role", (itf.lookup "role").getD (PyVal.str "assistant")),
                        ("content", t)] :: collectOutputMessages rest
          | Option.none => collectOutputMessages rest
        | _ => collectOutputMessages rest
      | _ => collectOutputMessages rest
    | _ => collectOutputMessages rest

/-- The response-shape normalization of `_query_endpoint`: `messages` wins and
is returned verbatim, then `choices` is rewritten to
`{"messages": [choices[0]["message"]]}` (raising - modelled as `Except.error` -
when the subscripting fails), then a `content` dict passes through, then the
`output` branch collects per-item turns (falling back to a string rendering
when none can be extracted), then an unrecognized dict passes through verbatim
and a non-dict becomes `{"content": str(res)}`. -/
def normalizeResponse (res : PyVal) : Except String PyVal :=
  match res with
  | PyVal.dict fs =>
    match fs.lookup "messages" with
    | some _ => Except.ok res
    | Option.none =>
      match fs.lookup "choices" with
      | some choicesVal =>
        match choicesVal with
        | PyVal.list (PyVal.dict cf :: _) =>
          match cf.lookup "message" with
          | some m => Except.ok (PyVal.dict [("messages", PyVal.list [m])])
          | Option.none => Except.error "KeyError: \x27message\x27"
        | PyVal.list (_ :: _) => Except.error "TypeError: indices must be integers"
        | PyVal.list [] => Except.error "IndexError: list index out of range"
        | _ => Except.error "TypeError: object is not subscriptable"
      | Option.none =>
        match fs.lookup "content" with
        | some _ => Except.ok res
        | Option.none =>
          match fs.lookup "output" with
          | some (PyVal.list items) =>
            match collectOutputMessages items with
            | [] => Except.ok (PyVal.dict [("content", PyVal.str (pyStr res))])
            | m :: ms => Except.ok (PyVal.dict [("messages", PyVal.list (m :: ms))])
          | _ => Except.ok res
  | _ => Except.ok (PyVal.dict [("content", PyVal.str (pyStr res))])

/-- Python raise at the end of `_query_endpoint`: the caught exception is
re-raised as `Failed to call endpoint {name}: {message}`. -/
def wrapEndpointError (endpointName : String) : Except String PyVal → Except String PyVal
  | Except.ok v => Except.ok v
  | Except.error e => Except.error ("Failed to call endpoint " ++ endpointName ++ ": " ++ e)

/-- The message of the exception raised by `_validate_endpoint_task_type`. -/
def unsupportedEndpointMessage : String :=
  "Detected unsupported endpoint type for this basic chatbot template. " ++
  "This chatbot template only supports chat completions-compatible endpoints. " ++
  "For a richer chatbot template with support for all conversational endpoints on Databricks, " ++
  "see https://docs.databricks.com/aws/en/generative-ai/agent-framework/chat-app"

/-- The functions `_query_endpoint` / `query_endpoint`: validate the task type (raising
outside the try block when unsupported), build the envelope for the task type,
call the external `predict` (modelled as an oracle argument), normalize the
response, and wrap any exception from the try block. -/
def query_endpoint (endpointName task : String) (messages maxTokens : PyVal)
    (predict : PyVal → Except String PyVal) : Except String PyVal :=
  if is_endpoint_supported task = false then Except.error unsupportedEndpointMessage
  else
    wrapEndpointError endpointName
      ((predict (buildInputs task messages maxTokens)).bind normalizeResponse)

/-! ## Reply extraction
(`DatabricksChatbot._call_model_endpoint`, lines 222-238). -/

/-- Python `msg.get("role") == "assistant"`: a missing key yields `None`,
which compares unequal, as does any non-string role value. -/
def isAssistantRole (v : Option PyVal) : Bool :=
  match v with
  | some (PyVal.str r) => r = "assistant"
  | _ => false

/-- The comprehension
`[msg for msg in response["messages"] if msg.get("role") == "assistant"]`:
collects the field lists of the dict elements whose role equals
`"assistant"`, raising `AttributeError` at the first non-dict element
(Python `msg.get` on a non-dict). -/
def assistantMessages : List PyVal → Except String (List (List (String × PyVal)))
  | [] => Except.ok []
  | PyVal.dict mf :: rest =>
    (assistantMessages rest).map
      (fun tail => if isAssistantRole (mf.lookup "role") then mf :: tail else tail)
  | _ :: _ => Except.error "AttributeError: object has no attribute get"

/-- The `messages` branch of `_call_model_endpoint`.  `response` is the whole
normalized response, `msgsVal` the value under its `messages` key.  The last
assistant message's `content` wins; with no assistant message, a non-empty
list falls back to the first message's `content` (or its string rendering
when the key is absent), and an empty (hence falsy) `messages` value falls
through to `str(response)`.  Iterating a non-list raises, as does
`["content"]` on an assistant message without the key. -/
def extractFromMessages (response msgsVal : PyVal) : Except String PyVal :=
  match msgsVal with
  | PyVal.list ms =>
    (assistantMessages ms).bind (fun assistantMsgs =>
      match assistantMsgs.getLast? with
      | some af =>
        match af.lookup "content" with
        | some c => Except.ok c
        | Option.none => Except.error "KeyError: \x27content\x27"
      | Option.none =>
        match ms with
        | PyVal.dict mf :: _ =>
          match mf.lookup "content" with
          | some c => Except.ok c
          | Option.none => Except.ok (PyVal.str (pyStr (PyVal.dict mf)))
        | _ :: _ => Except.error "AttributeError: object has no attribute get"
        | [] => Except.ok (PyVal.str (pyStr response)))
  | PyVal.str "" => Except.ok (PyVal.str (pyStr response))
  | PyVal.str _ => Except.error "AttributeError: object has no attribute get"
  | PyVal.dict [] => Except.ok (PyVal.str (pyStr response))
  | PyVal.dict (_ :: _) => Except.error "AttributeError: object has no attribute get"
  | _ => Except.error "TypeError: object is not iterable"

/-- The reply-extraction block of `_call_model_endpoint`: on a dict, the
`messages` branch (with its fall-through to `str(response)`), else a
`content` value verbatim, else `choices[0]["message"]["content"]` (raising
when that subscripting fails), else - and for any non-dict - the string
rendering of the whole response. -/
def extractReply (response : PyVal) : Except String PyVal :=
  match response with
  | PyVal.dict fs =>
    match fs.lookup "messages" with
    | some msgsVal => extractFromMessages response msgsVal
    | Option.none =>
      match fs.lookup "content" with
      | some c => Except.ok c
      | Option.none =>
        match fs.lookup "choices" with
        | some (PyVal.list (PyVal.dict cf :: _)) =>
          match cf.lookup "message" with
          | some (PyVal.dict mc) =>
            match mc.lookup "content" with
            | some c => Except.ok c
            | Option.none => Except.error "KeyError: \x27content\x27"
          | some _ => Except.error "TypeError: indices must be integers"
          | Option.none => Except.error "KeyError: \x27message\x27"
        | some (PyVal.list (_ :: _)) => Except.error "TypeError: indices must be integers"
        | some (PyVal.list []) => Except.error "IndexError: list index out of range"
        | some _ => Except.error "TypeError: object is not subscriptable"
        | Option.none => Except.ok (PyVal.str (pyStr response))
  | _ => Except.ok (PyVal.str (pyStr response))

/-- The method `_call_model_endpoint`: query the endpoint (its own try/except re-raises
unchanged) and extract the reply from the returned response. -/
def call_model_endpoint (endpointName task : String) (history : List PyVal)
    (maxTokens : PyVal) (predict : PyVal → Except String PyVal) : Except String PyVal :=
  (query_endpoint endpointName task (PyVal.list history) maxTokens predict).bind extractReply

/-! ## Conversation state transitions
(the `handle_user_input` and `handle_assistant_response` Dash callbacks of
`DatabricksChatbot.py`). -/

/-- A `{"role": ..., "content": ...}` dict as appended to the chat history. -/
def mkTurn (role : String) (content : PyVal) : PyVal :=
  PyVal.dict [("role", PyVal.str role), ("content", content)]

/-- The guard of `handle_assistant_response`: the history is non-empty, its
last element is a dict with a `role` key, and that role equals `"user"`. -/
def lastIsUserTurn (history : List PyVal) : Bool :=
  match history.getLast? with
  | some (PyVal.dict mf) =>
    match mf.lookup "role" with
    | some (PyVal.str r) => r = "user"
    | _ => false
  | _ => false

/-- Whether a history's last turn is an assistant turn. -/
def lastIsAssistantTurn (history : List PyVal) : Bool :=
  match history.getLast? with
  | some (PyVal.dict mf) =>
    match mf.lookup "role" with
    | some (PyVal.str r) => r = "assistant"
    | _ => false
  | _ => false

/-- The outputs of the `handle_assistant_response` callback that the claims
are about: the updated chat history store, the send-button disabled flag and
the status indicator class and text. -/
structure AssistantResult where
  history : List PyVal
  sendDisabled : Bool
  statusClass : String
  statusText : String

/-- The try/except body of `handle_assistant_response`: a successful call
appends an assistant turn with the extracted reply and keeps the connected
status; an exception appends an assistant turn whose content is
`Error: {message}` and switches to the error status.  Both branches re-enable
the send button. -/
def handle_assistant_response (history : List PyVal) (callResult : Except String PyVal) :
    AssistantResult :=
  match callResult with
  | Except.ok reply =>
    { history := history ++ [mkTurn "assistant" reply]
      sendDisabled := false
      statusClass := "status-indicator connected"
      statusText := "Connected" }
  | Except.error e =>
    { history := history ++ [mkTurn "assistant" (PyVal.str ("Error: " ++ e))]
      sendDisabled := false
      statusClass := "status-indicator error"
      statusText := "Error" }

/-- The whole `handle_assistant_response` callback: `Option.none` models the
`dash.no_update` returns (trigger absent, or the history does not end with a
user turn); otherwise the model endpoint is called on the history and the
result appended. -/
def assistantCallback (triggerFlag : Bool) (history : List PyVal)
    (callModel : List PyVal → Except String PyVal) : Option AssistantResult :=
  if triggerFlag = false then Option.none
  else if lastIsUserTurn history = false then Option.none
  else some (handle_assistant_response history (callModel history))

/-- Python `str.isspace` characters relevant to `strip()` in the ASCII range
(space, tab, newline, carriage return, vertical tab, form feed). -/
def isPySpace (c : Char) : Bool :=
  c = ' ' || c = '\t' || c = '\n' || c = '\r' || c = '\x0b' || c = '\x0c'

/-- Python `s.strip()`: drop leading and trailing whitespace. -/
def pyStrip (s : String) : String :=
  String.mk (((s.toList.dropWhile isPySpace).reverse.dropWhile isPySpace).reverse)

/-- The outputs of the `handle_user_input` callback that the claims are
about: the updated history store, the cleared input box value, the assistant
trigger and the send-button disabled flag. -/
structure UserInputResult where
  history : List PyVal
  inputValue : String
  triggerAssistant : Bool
  sendDisabled : Bool

/-- The send branch of the `handle_user_input` callback: `Option.none` models
the `dash.no_update` return for an absent, empty or whitespace-only input;
otherwise the stripped input is appended as a user turn, the input box is
cleared, the assistant trigger is set and the send button disabled. -/
def handle_user_input (userInput : Option String) (history : List PyVal) :
    Option UserInputResult :=
  match userInput with
  | Option.none => Option.none
  | some s =>
    if s = "" then Option.none
    else if pyStrip s = "" then Option.none
    else some
      { history := history ++ [mkTurn "user" (PyVal.str (pyStrip s))]
        inputValue := ""
        triggerAssistant := true
        sendDisabled := true }

/-! ## Shape predicates used to state the claims. -/

/-- Whether `v[0]["message"]` succeeds in Python, as required by the
`choices` branches. -/
def choicesExtractable : PyVal → Bool
  | PyVal.list (PyVal.dict cf :: _) => (cf.lookup "message").isSome
  | _ => false

/-- Exactly the raw responses on which the normalization block of
`_query_endpoint` raises: a dict without `messages` whose `choices` value
does not support the `[0]["message"]` extraction. -/
def normalizeRaisesOn : PyVal → Bool
  | PyVal.dict fs =>
    (fs.lookup "messages").isNone &&
      (match fs.lookup "choices" with
       | some v => !choicesExtractable v
       | Option.none => false)
  | _ => false

/-- The unrecognized shapes of the claims: a dict containing none of the keys
`messages`, `choices`, `content`, `output`, or any non-dict value. -/
def unrecognizedShape : PyVal → Bool
  | PyVal.dict fs =>
    (fs.lookup "messages").isNone && (fs.lookup "choices").isNone &&
      (fs.lookup "content").isNone && (fs.lookup "output").isNone
  | _ => true

/-- A `{role, content}` mapping as in the canonical `messages` shape. -/
def isRoleContentTurn : PyVal → Bool
  | PyVal.dict mf => (mf.lookup "role").isSome && (mf.lookup "content").isSome
  | _ => false

/-- The per-item extraction described by the spec for the `output` branch:
an item contributes one turn exactly when it is a mapping whose `content`
holds a non-empty sequence starting with a mapping carrying `text`; the turn's
role is the item's `role` field, defaulting to `"assistant"`. -/
def extractOutputTurn (item : PyVal) : Option PyVal :=
  match item with
  | PyVal.dict itf =>
    match itf.lookup "content" with
    | some (PyVal.list (PyVal.dict ff :: _)) =>
      match ff.lookup "text" with
      | some t =>
        some (PyVal.dict [("role", (itf.lookup "role").getD (PyVal.str "assistant")),
                          ("content", t)])
      | Option.none => Option.none
    | _ => Option.none
  | _ => Option.none

/-! ## Theorems -/

/-- The accumulation loop of the `output` branch produces exactly one turn
per qualifying item, in item order. -/
theorem collectOutputMessages_eq_filterMap (items : List PyVal) :
    collectOutputMessages items = items.filterMap extractOutputTurn := by
  induction items with
  | nil => rfl
  | cons item rest ih =>
    cases item with
    | dict itf =>
      simp only [collectOutputMessages, extractOutputTurn, List.filterMap_cons]
      cases hc : itf.lookup "content" with
      | none => simpa using ih
      | some v =>
        cases v with
        | list xs =>
          cases xs with
          | nil => simpa using ih
          | cons first tl =>
            cases first with
            | dict ff =>
              cases ht : ff.lookup "text" with
              | none => simpa [ht] using ih
              | some t => simp [ht, ih]
            | str s => simpa using ih
            | int n => simpa using ih
            | bool b => simpa using ih
            | null => simpa using ih
            | list ys => simpa using ih
        | str s => simpa using ih
        | int n => simpa using ih
        | bool b => simpa using ih
        | null => simpa using ih
        | dict gs => simpa using ih
    | str s => simpa [collectOutputMessages, extractOutputTurn, List.filterMap_cons] using ih
    | int n => simpa [collectOutputMessages, extractOutputTurn, List.filterMap_cons] using ih
    | bool b => simpa [collectOutputMessages, extractOutputTurn, List.filterMap_cons] using ih
    | null => simpa [collectOutputMessages, extractOutputTurn, List.filterMap_cons] using ih
    | list ys => simpa [collectOutputMessages, extractOutputTurn, List.filterMap_cons] using ih

/-- Claim C3: a mapping whose `messages` key holds a non-empty sequence of
`{role, content}` mappings is returned verbatim by the normalization block of
`_query_endpoint`, its turn sequence preserved field-for-field and in
order. -/
theorem normalize_messages_verbatim (fs : List (String × PyVal)) (ms : List PyVal)
    (h : fs.lookup "messages" = some (PyVal.list ms)) (hne : ms ≠ [])
    (hwf : ms.all isRoleContentTurn = true) :
    normalizeResponse (PyVal.dict fs) = Except.ok (PyVal.dict fs) ∧
      (PyVal.dict fs).lookupKey "messages" = some (PyVal.list ms) := by
  refine ⟨?_, h⟩
  simp only [normalizeResponse, h]

/-- Witness for `normalize_messages_verbatim` at the canonical two-turn
response of the spec's test property. -/
theorem normalize_messages_verbatim_witness :
    normalizeResponse (PyVal.dict [("messages", PyVal.list
        [mkTurn "user" (PyVal.str "hi"), mkTurn "assistant" (PyVal.str "hello")])]) =
      Except.ok (PyVal.dict [("messages", PyVal.list
        [mkTurn "user" (PyVal.str "hi"), mkTurn "assistant" (PyVal.str "hello")])]) :=
  (normalize_messages_verbatim
    [("messages", PyVal.list
        [mkTurn "user" (PyVal.str "hi"), mkTurn "assistant" (PyVal.str "hello")])]
    [mkTurn "user" (PyVal.str "hi"), mkTurn "assistant" (PyVal.str "hello")]
    rfl (by simp) rfl).1

/-- Claim C5: a mapping with `choices` and without `messages` normalizes to
the single chat turn `choices[0]["message"]`. -/
theorem normalize_choices_extracts (fs cf : List (String × PyVal)) (m : PyVal)
    (rest : List PyVal)
    (hm : fs.lookup "messages" = Option.none)
    (hc : fs.lookup "choices" = some (PyVal.list (PyVal.dict cf :: rest)))
    (hmsg : cf.lookup "message" = some m) :
    normalizeResponse (PyVal.dict fs) =
      Except.ok (PyVal.dict [("messages", PyVal.list [m])]) := by
  simp only [normalizeResponse, hm, hc, hmsg]

/-- Witness for `normalize_choices_extracts` at the OpenAI-style example of
the spec, whose reply extraction then yields `"x"`. -/
theorem normalize_choices_extracts_witness :
    normalizeResponse (PyVal.dict [("choices", PyVal.list [PyVal.dict [("message",
        PyVal.dict [("role", PyVal.str "assistant"), ("content", PyVal.str "x")])]])]) =
      Except.ok (PyVal.dict [("messages", PyVal.list
        [PyVal.dict [("role", PyVal.str "assistant"), ("content", PyVal.str "x")]])]) ∧
    (normalizeResponse (PyVal.dict [("choices", PyVal.list [PyVal.dict [("message",
        PyVal.dict [("role", PyVal.str "assistant"), ("content", PyVal.str "x")])]])])).bind
        extractReply = Except.ok (PyVal.str "x") := by
  have h := normalize_choices_extracts
    [("choices", PyVal.list [PyVal.dict [("message",
        PyVal.dict [("role", PyVal.str "assistant"), ("content", PyVal.str "x")])]])]
    [("message", PyVal.dict [("role", PyVal.str "assistant"), ("content", PyVal.str "x")])]
    (PyVal.dict [("role", PyVal.str "assistant"), ("content", PyVal.str "x")]) [] rfl rfl rfl
  exact ⟨h, by rw [h]; rfl⟩

/-- The two falsiness checks of the send branch collapse into a single
stripped-input check, since stripping the empty string is empty. -/
theorem handle_user_input_some (s : String) (history : List PyVal) :
    handle_user_input (some s) history =
      if pyStrip s = "" then Option.none
      else some { history := history ++ [mkTurn "user" (PyVal.str (pyStrip s))],
                  inputValue := "", triggerAssistant := true, sendDisabled := true } := by
  simp only [handle_user_input]
  by_cases h1 : s = ""
  · subst h1
    have h : pyStrip "" = "" := rfl
    simp [h]
  · simp [h1]

/-- Claim C10: a send with an absent, empty or whitespace-only input leaves
the conversation unchanged and triggers nothing; a non-blank input appends a
user turn holding the input stripped of surrounding whitespace, clears the
box, sets the assistant trigger and disables the send button. -/
theorem user_input_blank_guard (history : List PyVal) (s : String) :
    handle_user_input Option.none history = Option.none ∧
    (pyStrip s = "" → handle_user_input (some s) history = Option.none) ∧
    (pyStrip s ≠ "" → handle_user_input (some s) history =
      some { history := history ++ [mkTurn "user" (PyVal.str (pyStrip s))],
             inputValue := "", triggerAssistant := true, sendDisabled := true }) := by
  refine ⟨rfl, ?_, ?_⟩
  · intro h
    rw [handle_user_input_some, if_pos h]
  · intro h
    rw [handle_user_input_some, if_neg h]

/-- Witness for `user_input_blank_guard`: whitespace-padded input is stripped
and appended; whitespace-only input is ignored. -/
theorem user_input_blank_guard_witness :
    handle_user_input (some "  hi  ") [] =
      some { history := [mkTurn "user" (PyVal.str "hi")], inputValue := "",
             triggerAssistant := true, sendDisabled := true } ∧
    handle_user_input (some "   ") [] = Option.none := by
  constructor
  · have h := (user_input_blank_guard [] "  hi  ").2.2 (by decide)
    rw [h]
    rfl
  · exact (user_input_blank_guard [] "   ").2.1 (by decide)

/-- Appending an assistant turn makes it the last turn of the history. -/
theorem lastIsAssistantTurn_append (history : List PyVal) (c : PyVal) :
    lastIsAssistantTurn (history ++ [mkTurn "assistant" c]) = true := by
  simp [lastIsAssistantTurn, mkTurn]

/-- Claim C8: when the endpoint invocation raises, `handle_assistant_response`
appends exactly one assistant turn whose content is the error description
prefixed `Error: `, leaves every prior turn unchanged, switches the status
indicator to the error state, and leaves the conversation usable (the send
button is re-enabled and a subsequent non-blank send still appends). -/
theorem error_turn_appended (history : List PyVal) (e s : String) :
    (handle_assistant_response history (Except.error e)).history =
      history ++ [mkTurn "assistant" (PyVal.str ("Error: " ++ e))] ∧
    (handle_assistant_response history (Except.error e)).history.take history.length =
      history ∧
    (handle_assistant_response history (Except.error e)).statusClass =
      "status-indicator error" ∧
    (handle_assistant_response history (Except.error e)).statusText = "Error" ∧
    (handle_assistant_response history (Except.error e)).sendDisabled = false ∧
    (pyStrip s ≠ "" →
      (handle_user_input (some s)
        (handle_assistant_response history (Except.error e)).history).isSome = true) := by
  refine ⟨rfl, ?_, rfl, rfl, rfl, ?_⟩
  · exact List.take_left history [mkTurn "assistant" (PyVal.str ("Error: " ++ e))]
  · intro h
    rw [handle_user_input_some, if_neg h]
    rfl

/-- Witness for `error_turn_appended` at a one-turn history and a concrete
error message. -/
theorem error_turn_appended_witness :
    (handle_assistant_response [mkTurn "user" (PyVal.str "hi")]
        (Except.error "boom")).history =
      [mkTurn "user" (PyVal.str "hi"),
       mkTurn "assistant" (PyVal.str "Error: boom")] ∧
    (handle_assistant_response [mkTurn "user" (PyVal.str "hi")]
        (Except.error "boom")).statusText = "Error" ∧
    (handle_user_input (some "again")
      (handle_assistant_response [mkTurn "user" (PyVal.str "hi")]
        (Except.error "boom")).history).isSome = true := by
  have h := error_turn_appended [mkTurn "user" (PyVal.str "hi")] "boom" "again"
  exact ⟨h.1, h.2.2.2.1, h.2.2.2.2.2 (by decide)⟩

/-- Claim C9: the assistant step calls the endpoint only on a history ending
with a user turn, returns `dash.no_update` otherwise, and - on success and on
error alike - the updated history ends with an assistant turn. -/
theorem assistant_step_turn_invariants (triggerFlag : Bool) (history : List PyVal)
    (callModel : List PyVal → Except String PyVal) :
    (∀ r, assistantCallback triggerFlag history callModel = some r →
      lastIsUserTurn history = true) ∧
    (lastIsUserTurn history = false →
      assistantCallback triggerFlag history callModel = Option.none) ∧
    (∀ r, assistantCallback triggerFlag history callModel = some r →
      lastIsAssistantTurn r.history = true) := by
  refine ⟨?_, ?_, ?_⟩
  · intro r hr
    by_cases hu : lastIsUserTurn history = true
    · exact hu
    · rw [Bool.not_eq_true] at hu
      simp [assistantCallback, hu] at hr
  · intro hu
    simp [assistantCallback, hu]
  · intro r hr
    simp only [assistantCallback] at hr
    split_ifs at hr
    cases hr
    cases hcall : callModel history with
    | ok reply =>
      simp only [handle_assistant_response, hcall]
      exact lastIsAssistantTurn_append history reply
    | error e =>
      simp only [handle_assistant_response, hcall]
      exact lastIsAssistantTurn_append history (PyVal.str ("Error: " ++ e))

/-- Witness for `assistant_step_turn_invariants`: a triggered step on a
history ending with a user turn yields a history ending with an assistant
turn, and a history ending with an assistant turn is rejected. -/
theorem assistant_step_turn_invariants_witness :
    lastIsUserTurn [mkTurn "user" (PyVal.str "hi")] = true ∧
    lastIsAssistantTurn
      (handle_assistant_response [mkTurn "user" (PyVal.str "hi")]
        (Except.ok (PyVal.str "hello"))).history = true ∧
    assistantCallback true [mkTurn "assistant" (PyVal.str "hello")]
      (fun _ => Except.ok (PyVal.str "x")) = Option.none := by
  refine ⟨rfl, ?_, ?_⟩
  · exact (assistant_step_turn_invariants true [mkTurn "user" (PyVal.str "hi")]
      (fun _ => Except.ok (PyVal.str "hello"))).2.2 _ rfl
  · exact (assistant_step_turn_invariants true [mkTurn "assistant" (PyVal.str "hello")]
      (fun _ => Except.ok (PyVal.str "x"))).2.1 rfl

/-- A task type outside the allow-list is not supported. -/
theorem is_endpoint_supported_false_of_not_mem (task : String)
    (h : task ∉ supportedTaskTypes) : is_endpoint_supported task = false := by
  simp only [is_endpoint_supported]
  simpa using h

/-- A task type classified unsupported fails the allow-list check. -/
theorem not_supported_of_classify_unsupported (task : String)
    (h : classifyDialect task = Dialect.unsupported) :
    is_endpoint_supported task = false := by
  by_cases hs : is_endpoint_supported task = false
  · exact hs
  · unfold classifyDialect at h
    rw [if_neg hs] at h
    split_ifs at h <;> simp_all

/-- Claim C6: `classifyDialect` maps the three chat task types to the
standard-chat dialect, the two supervisor task types to the supervisor
dialect, `agent/v1/responses` to the response-style dialect and every other
task-type string to unsupported - and querying an endpoint classified
unsupported returns the configuration error regardless of the `predict`
oracle, so the endpoint is never invoked. -/
theorem classify_dialect_allowlist :
    classifyDialect "agent/v1/chat" = Dialect.standardChat ∧
    classifyDialect "agent/v2/chat" = Dialect.standardChat ∧
    classifyDialect "llm/v1/chat" = Dialect.standardChat ∧
    classifyDialect "agent/v1/supervisor" = Dialect.supervisor ∧
    classifyDialect "agent/v2/supervisor" = Dialect.supervisor ∧
    classifyDialect "agent/v1/responses" = Dialect.responseStyle ∧
    (∀ task, task ∉ supportedTaskTypes → classifyDialect task = Dialect.unsupported) ∧
    (∀ endpointName task messages maxTokens
        (predict : PyVal → Except String PyVal),
      classifyDialect task = Dialect.unsupported →
      query_endpoint endpointName task messages maxTokens predict =
        Except.error unsupportedEndpointMessage) := by
  refine ⟨by decide, by decide, by decide, by decide, by decide, by decide, ?_, ?_⟩
  · intro task h
    simp [classifyDialect, is_endpoint_supported_false_of_not_mem task h]
  · intro endpointName task messages maxTokens predict h
    simp [query_endpoint, not_supported_of_classify_unsupported task h]

/-- Witness for `classify_dialect_allowlist`: an arbitrary other task type is
unsupported and querying it fails fast with the configuration error. -/
theorem classify_dialect_allowlist_witness :
    classifyDialect "llm/v1/completions" = Dialect.unsupported ∧
    query_endpoint "ep" "llm/v1/completions" (PyVal.list []) (PyVal.int 512)
        (fun _ => Except.ok (PyVal.dict [("content", PyVal.str "hi")])) =
      Except.error unsupportedEndpointMessage := by
  have h7 := classify_dialect_allowlist.2.2.2.2.2.2.1 "llm/v1/completions" (by decide)
  exact ⟨h7, classify_dialect_allowlist.2.2.2.2.2.2.2 "ep" "llm/v1/completions"
    (PyVal.list []) (PyVal.int 512) _ h7⟩

/-- Claim C7: the request envelope built before invoking the endpoint is
`{messages, max_tokens}` for the standard-chat dialect,
`{messages, max_tokens, stream: false}` for the supervisor dialect and
`{input, max_output_tokens, stream: false}` for the response-style dialect -
and the supported query path passes exactly that envelope to `predict`. -/
theorem envelope_by_dialect (task : String) (conv budget : PyVal) :
    (classifyDialect task = Dialect.standardChat →
      buildInputs task conv budget =
        PyVal.dict [("messages", conv), ("max_tokens", budget)]) ∧
    (classifyDialect task = Dialect.supervisor →
      buildInputs task conv budget =
        PyVal.dict [("messages", conv), ("max_tokens", budget),
                    ("stream", PyVal.bool false)]) ∧
    (classifyDialect task = Dialect.responseStyle →
      buildInputs task conv budget =
        PyVal.dict [("input", conv), ("max_output_tokens", budget),
                    ("stream", PyVal.bool false)]) ∧
    (∀ endpointName (predict : PyVal → Except String PyVal),
      is_endpoint_supported task = true →
      query_endpoint endpointName task conv budget predict =
        wrapEndpointError endpointName
          ((predict (buildInputs task conv budget)).bind normalizeResponse)) := by
  refine ⟨?_, ?_, ?_, ?_⟩
  · intro h
    unfold classifyDialect at h
    unfold buildInputs
    split_ifs at h ⊢ <;> first | rfl | cases h
  · intro h
    unfold classifyDialect at h
    unfold buildInputs
    split_ifs at h ⊢ <;> first | rfl | cases h
  · intro h
    unfold classifyDialect at h
    unfold buildInputs
    split_ifs at h ⊢ <;> first | rfl | cases h
  · intro endpointName predict h
    simp [query_endpoint, h]

/-- Witness for `envelope_by_dialect` at the three supported dialects with a
one-turn conversation and a budget of 512 tokens. -/
theorem envelope_by_dialect_witness :
    buildInputs "llm/v1/chat" (PyVal.list [mkTurn "user" (PyVal.str "hi")])
        (PyVal.int 512) =
      PyVal.dict [("messages", PyVal.list [mkTurn "user" (PyVal.str "hi")]),
                  ("max_tokens", PyVal.int 512)] ∧
    buildInputs "agent/v1/supervisor" (PyVal.list [mkTurn "user" (PyVal.str "hi")])
        (PyVal.int 512) =
      PyVal.dict [("messages", PyVal.list [mkTurn "user" (PyVal.str "hi")]),
                  ("max_tokens", PyVal.int 512), ("stream", PyVal.bool false)] ∧
    buildInputs "agent/v1/responses" (PyVal.list [mkTurn "user" (PyVal.str "hi")])
        (PyVal.int 512) =
      PyVal.dict [("input", PyVal.list [mkTurn "user" (PyVal.str "hi")]),
                  ("max_output_tokens", PyVal.int 512), ("stream", PyVal.bool false)] :=
  ⟨(envelope_by_dialect "llm/v1/chat" _ _).1 (by decide),
   (envelope_by_dialect "agent/v1/supervisor" _ _).2.1 (by decide),
   (envelope_by_dialect "agent/v1/responses" _ _).2.2.1 (by decide)⟩

/-- Claim C4: a mapping with `output` (and none of `messages`, `choices`,
`content`) holding a sequence of items normalizes to one turn per qualifying
item - role from the item (defaulting to `"assistant"`), content from the
first content element's `text`, in item order - and to a single assistant
turn rendering the whole response when no turn can be extracted. -/
theorem normalize_output_branch (fs : List (String × PyVal)) (items : List PyVal)
    (hm : fs.lookup "messages" = Option.none)
    (hch : fs.lookup "choices" = Option.none)
    (hco : fs.lookup "content" = Option.none)
    (ho : fs.lookup "output" = some (PyVal.list items)) :
    (items.filterMap extractOutputTurn ≠ [] →
      normalizeResponse (PyVal.dict fs) =
        Except.ok (PyVal.dict
          [("messages", PyVal.list (items.filterMap extractOutputTurn))])) ∧
    (items.filterMap extractOutputTurn = [] →
      normalizeResponse (PyVal.dict fs) =
        Except.ok (PyVal.dict [("content", PyVal.str (pyStr (PyVal.dict fs)))])) := by
  have hfm := collectOutputMessages_eq_filterMap items
  constructor <;> intro h <;>
    simp only [normalizeResponse, hm, hch, hco, ho, hfm]
  · cases hcase : items.filterMap extractOutputTurn with
    | nil => exact absurd hcase h
    | cons m ms => simp only [hcase]
  · simp only [h]

/-- Counterexample to claim C1 as stated: the normalization block of
`_query_endpoint` raises (an `IndexError` caught and re-raised by the
enclosing handler) on the raw response `{"choices": []}`, so normalization
does not succeed for every raw response value. -/
theorem normalize_raises_on_empty_choices :
    normalizeResponse (PyVal.dict [("choices", PyVal.list [])]) =
      Except.error "IndexError: list index out of range" := rfl

/-- Claim C1 (amended): normalization succeeds for every raw response except
a mapping without `messages` whose `choices` value does not support the
`[0]["message"]` extraction (there it raises); and for every response
matching none of the recognized shapes the surfaced reply is exactly the
string rendering of the raw response. -/
theorem normalize_total_amended (res : PyVal) :
    (normalizeRaisesOn res = false → (normalizeResponse res).isOk = true) ∧
    (unrecognizedShape res = true →
      (normalizeResponse res).bind extractReply =
        Except.ok (PyVal.str (pyStr res))) := by
  constructor
  · intro h
    cases res with
    | str s => rfl
    | int n => rfl
    | bool b => rfl
    | null => rfl
    | list xs => rfl
    | dict fs =>
      simp only [normalizeRaisesOn] at h
      simp only [normalizeResponse]
      cases hm : fs.lookup "messages" with
      | some v => rfl
      | none =>
        rw [hm] at h
        simp only [Option.isNone_none, Bool.true_and] at h
        cases hc : fs.lookup "choices" with
        | some cv =>
          rw [hc] at h
          have hex : choicesExtractable cv = true := by simpa using h
          cases cv with
          | str s => simp [choicesExtractable] at hex
          | int n => simp [choicesExtractable] at hex
          | bool b => simp [choicesExtractable] at hex
          | null => simp [choicesExtractable] at hex
          | dict gs => simp [choicesExtractable] at hex
          | list xs =>
            cases xs with
            | nil => simp [choicesExtractable] at hex
            | cons c tl =>
              cases c with
              | str s => simp [choicesExtractable] at hex
              | int n => simp [choicesExtractable] at hex
              | bool b => simp [choicesExtractable] at hex
              | null => simp [choicesExtractable] at hex
              | list ys => simp [choicesExtractable] at hex
              | dict cf =>
                simp only [choicesExtractable] at hex
                cases hmsg : cf.lookup "message" with
                | some m => simp only [hmsg]; rfl
                | none => rw [hmsg] at hex; simp at hex
        | none =>
          cases hct : fs.lookup "content" with
          | some v => rfl
          | none =>
            cases ho : fs.lookup "output" with
            | some ov =>
              cases ov with
              | str s => rfl
              | int n => rfl
              | bool b => rfl
              | null => rfl
              | dict gs => rfl
              | list items =>
                cases hcm : collectOutputMessages items with
                | nil => simp only [hcm]; rfl
                | cons m ms => simp only [hcm]; rfl
            | none => rfl
  · intro h
    cases res with
    | str s => rfl
    | int n => rfl
    | bool b => rfl
    | null => rfl
    | list xs => rfl
    | dict fs =>
      simp only [unrecognizedShape, Bool.and_eq_true, Option.isNone_iff_eq_none] at h
      obtain ⟨⟨⟨hm, hc⟩, hco⟩, ho⟩ := h
      simp only [normalizeResponse, hm, hc, hco, ho]
      show extractReply (PyVal.dict fs) = Except.ok (PyVal.str (pyStr (PyVal.dict fs)))
      simp only [extractReply, hm, hco, hc]

/-- Witness for `normalize_total_amended` at the unrecognized mapping
`{"unexpected": "shape"}`: normalization succeeds and the surfaced reply is
the non-empty string rendering of the input. -/
theorem normalize_total_amended_witness :
    (normalizeResponse (PyVal.dict [("unexpected", PyVal.str "shape")])).isOk = true ∧
    (normalizeResponse (PyVal.dict [("unexpected", PyVal.str "shape")])).bind
        extractReply =
      Except.ok (PyVal.str "\x7b\x27unexpected\x27: \x27shape\x27\x7d") := by
  refine ⟨(normalize_total_amended (PyVal.dict [("unexpected", PyVal.str "shape")])).1 rfl, ?_⟩
  have h := (normalize_total_amended (PyVal.dict [("unexpected", PyVal.str "shape")])).2 rfl
  rw [h]
  rfl


/-- Witness for `normalize_output_branch` at the response-style instance of
the spec, which normalizes to a single assistant turn with content `"y"`. -/
theorem normalize_output_branch_witness :
    normalizeResponse (PyVal.dict [("output", PyVal.list
        [PyVal.dict [("role", PyVal.str "assistant"),
          ("content", PyVal.list [PyVal.dict [("text", PyVal.str "y")]])]])]) =
      Except.ok (PyVal.dict [("messages", PyVal.list
        [PyVal.dict [("role", PyVal.str "assistant"), ("content", PyVal.str "y")]])]) := by
  have h := (normalize_output_branch
    [("output", PyVal.list
        [PyVal.dict [("role", PyVal.str "assistant"),
          ("content", PyVal.list [PyVal.dict [("text", PyVal.str "y")]])]])]
    [PyVal.dict [("role", PyVal.str "assistant"),
      ("content", PyVal.list [PyVal.dict [("text", PyVal.str "y")]])]]
    rfl rfl rfl rfl).1 (List.cons_ne_nil _ _)
  rw [h]
  rfl

/-- Counterexample to claim C2 as stated: on an empty normalized turn
sequence, the reply-extraction block of `_call_model_endpoint` falls through
to `str(response)` and returns the string rendering of the whole response,
not the literal placeholder `No response received` (that string appears only
in the never-called helper `_format_multi_agent_response`). -/
theorem extract_reply_empty_not_placeholder :
    extractReply (PyVal.dict [("messages", PyVal.list [])]) =
      Except.ok (PyVal.str "\x7b\x27messages\x27: []\x7d") ∧
    ("\x7b\x27messages\x27: []\x7d" : String) ≠ "No response received" :=
  ⟨rfl, by decide⟩

/-- Claim C2 (amended): on a normalized `messages` sequence, the reply is the
content of the last assistant turn when one exists; otherwise the first
turn's content, or the string rendering of the first raw message element when
it has no content key; and on an empty sequence the string rendering of the
whole normalized response (not a literal placeholder). -/
theorem extract_reply_selection (fs : List (String × PyVal)) (ms : List PyVal)
    (h : fs.lookup "messages" = some (PyVal.list ms)) :
    (∀ amsgs af c, assistantMessages ms = Except.ok amsgs →
      amsgs.getLast? = some af → af.lookup "content" = some c →
      extractReply (PyVal.dict fs) = Except.ok c) ∧
    (∀ mf rest c, assistantMessages ms = Except.ok [] → ms = PyVal.dict mf :: rest →
      mf.lookup "content" = some c →
      extractReply (PyVal.dict fs) = Except.ok c) ∧
    (∀ mf rest, assistantMessages ms = Except.ok [] → ms = PyVal.dict mf :: rest →
      mf.lookup "content" = Option.none →
      extractReply (PyVal.dict fs) =
        Except.ok (PyVal.str (pyStr (PyVal.dict mf)))) ∧
    (ms = [] →
      extractReply (PyVal.dict fs) =
        Except.ok (PyVal.str (pyStr (PyVal.dict fs)))) := by
  have hstep : extractReply (PyVal.dict fs) =
      extractFromMessages (PyVal.dict fs) (PyVal.list ms) := by
    simp only [extractReply, h]
  refine ⟨?_, ?_, ?_, ?_⟩
  · intro amsgs af c ham hlast hcont
    rw [hstep]
    simp only [extractFromMessages, ham, Except.bind, hlast, hcont]
  · intro mf rest c ham hms hcont
    rw [hstep, hms]
    simp only [extractFromMessages, hms ▸ ham, Except.bind, List.getLast?_nil, hcont]
  · intro mf rest ham hms hcont
    rw [hstep, hms]
    simp only [extractFromMessages, hms ▸ ham, Except.bind, List.getLast?_nil, hcont]
  · intro hms
    rw [hstep, hms]
    rfl

/-- Witness for `extract_reply_selection` at the three-turn sequence of the
spec's test property: the last assistant turn wins. -/
theorem extract_reply_selection_witness :
    extractReply (PyVal.dict [("messages", PyVal.list
        [mkTurn "user" (PyVal.str "hi"), mkTurn "assistant" (PyVal.str "first"),
         mkTurn "assistant" (PyVal.str "second")])]) =
      Except.ok (PyVal.str "second") :=
  (extract_reply_selection
    [("messages", PyVal.list
        [mkTurn "user" (PyVal.str "hi"), mkTurn "assistant" (PyVal.str "first"),
         mkTurn "assistant" (PyVal.str "second")])]
    [mkTurn "user" (PyVal.str "hi"), mkTurn "assistant" (PyVal.str "first"),
     mkTurn "assistant" (PyVal.str "second")]
    rfl).1
    [[("role", PyVal.str "assistant"), ("content", PyVal.str "first")],
     [("role", PyVal.str "assistant"), ("content", PyVal.str "second")]]
    [("role", PyVal.str "assistant"), ("content", PyVal.str "second")]
    (PyVal.str "second") rfl rfl rfl
